import Mathlib

/-!
Shallow embedding of the payment-failure webhook monitor (src/index.js).

The program ingests Stripe payment-failure webhook events, normalizes them
into a canonical record, sends a Gmail alert, and creates an Airtable row,
with an in-memory bounded audit log.  External collaborators (the Stripe
signature verifier, the Gmail client, the Airtable client, the wall clock
and the Date-to-ISO-8601 formatter of the JS runtime) are modelled as
parameters: each remote call is represented by its outcome
(an `Except` value), and every call made to a sink is recorded in a trace.

Machine numbers: Stripe amounts are integers (minor units); JS division
`amount / 100` is modelled exactly over `ℚ`, and `Number.prototype.toFixed(2)`
is modelled as exact two-decimal rounding over `ℚ` (exact for every value the
program feeds it, namely integer cents divided by 100).
-/

namespace PaymentMonitor

/-- JS string-or-default: `a || d` where `a : Option String` models a field
that may be `undefined`.  Falsy strings are exactly `""`. -/
def jsOrStr (a : Option String) (d : String) : String :=
  match a with
  | some s => if s = "" then d else s
  | none => d

/-- JS `a || b` on two possibly-undefined strings (used in
`charge.receipt_email || charge.billing_details?.email`). -/
def jsOr (a b : Option String) : Option String :=
  match a with
  | some s => if s = "" then b else some s
  | none => b

/-- JS template-literal interpolation of a possibly-undefined string:
interpolating `undefined` renders the text "undefined". -/
def jsInterpOpt (a : Option String) : String :=
  match a with
  | some s => s
  | none => "undefined"

/-- Two-digit zero-padded rendering of a natural number below 100. -/
def pad2 (n : Nat) : String :=
  if n < 10 then "0" ++ toString n else toString n

/-- Decimal rendering of an integer amount of cents with exactly two
decimal places (`2500 ↦ "25.00"`, `-5 ↦ "-0.05"`). -/
def renderCents (n : Int) : String :=
  (if n < 0 then "-" else "") ++ toString (n.natAbs / 100) ++ "." ++ pad2 (n.natAbs % 100)

/-- JS-style rounding to the nearest integer, half away from zero. -/
def jsRoundHalfAway (q : ℚ) : Int :=
  if 0 ≤ q then ⌊q + 1/2⌋ else -⌊-q + 1/2⌋

/-- Model of `Number.prototype.toFixed(2)`: round to two decimals and render
with exactly two digits after the point. -/
def jsToFixed2 (q : ℚ) : String :=
  renderCents (jsRoundHalfAway (q * 100))

/-- Rounding a rational to two decimal places (the numeric content of
`toFixed(2)`). -/
def roundTo2 (q : ℚ) : ℚ :=
  (jsRoundHalfAway (q * 100) : ℚ) / 100

/-! ## Audit log (src/index.js lines 33-40, 209-211) -/

/-- `LogEntry`: a timestamped operational message. -/
structure LogEntry where
  timestamp : String
  message : String
deriving DecidableEq, Repr

/-- JS `l.slice(-n)`: the most recent `n` elements of `l`. -/
def jsSliceLast (n : Nat) (l : List LogEntry) : List LogEntry :=
  l.drop (l.length - n)

/-- `addLog(message)`: push a timestamped entry, then truncate to the most
recent 50 entries when the bound is exceeded.  The timestamp
(`new Date().toISOString()`) is passed in by the caller. -/
def addLog (logs : List LogEntry) (timestamp message : String) : List LogEntry :=
  let l2 := logs ++ [{ timestamp := timestamp, message := message }]
  if l2.length > 50 then jsSliceLast 50 l2 else l2

/-- The `GET /logs` handler: responds with `logs.slice(-20)` and leaves the
log itself untouched (the pair is (response payload, log after the read)). -/
def getLogsEndpoint (logs : List LogEntry) : List LogEntry × List LogEntry :=
  (jsSliceLast 20 logs, logs)

/-! ## Stripe events and the canonical record -/

/-- `charge.billing_details` (only its email is read). -/
structure BillingDetails where
  email : Option String
deriving DecidableEq, Repr

/-- `payment_intent.last_payment_error` (code and message may each be
undefined). -/
structure LastPaymentError where
  code : Option String
  message : Option String
deriving DecidableEq, Repr

/-- The duck-typed `event.data.object`: every field the program reads,
with `Option` for fields that may be undefined.  `amount` and `amount_due`
are the integer minor-unit amounts of the respective shapes. -/
structure EventObject where
  id : String
  receipt_email : Option String
  customer_email : Option String
  billing_details : Option BillingDetails
  amount : Int
  amount_due : Int
  currency : String
  failure_code : Option String
  failure_message : Option String
  last_payment_error : Option LastPaymentError
deriving DecidableEq, Repr

/-- A verified Stripe event: its type tag, its creation time
(`event.created`, epoch seconds), and its data object. -/
structure StripeEvent where
  type : String
  created : Int
  data : EventObject
deriving DecidableEq, Repr

/-- The canonical `PaymentFailure` record built by `processFailedPayment`.
`failure_code` and `failure_message` may be undefined
(`pi.last_payment_error?.code` etc.). -/
structure PaymentFailure where
  payment_id : String
  customer_email : String
  amount : Int
  currency : String
  failure_code : Option String
  failure_message : Option String
  failed_at : String
deriving DecidableEq, Repr

/-- The three event types the webhook route processes (line 174). -/
def recognizedTypes : List String :=
  ["payment_intent.payment_failed", "invoice.payment_failed", "charge.failed"]

/-- The normalization block of `processFailedPayment` (lines 116-151):
maps a recognized event to the canonical record; `none` models the
degenerate empty object `paymentData = {}` left by an unmatched type.
`iso` is the JS runtime formatter `ms ↦ new Date(ms).toISOString()`. -/
def normalize (iso : Int → String) (event : StripeEvent) : Option PaymentFailure :=
  if event.type = "payment_intent.payment_failed" then
    let pi := event.data
    some { payment_id := pi.id
           customer_email := jsOrStr pi.receipt_email "Unknown"
           amount := pi.amount
           currency := pi.currency
           failure_code := pi.last_payment_error.bind LastPaymentError.code
           failure_message := pi.last_payment_error.bind LastPaymentError.message
           failed_at := iso (event.created * 1000) }
  else if event.type = "invoice.payment_failed" then
    let invoice := event.data
    some { payment_id := invoice.id
           customer_email := jsOrStr invoice.customer_email "Unknown"
           amount := invoice.amount_due
           currency := invoice.currency
           failure_code := some "invoice_payment_failed"
           failure_message := some "Invoice payment failed"
           failed_at := iso (event.created * 1000) }
  else if event.type = "charge.failed" then
    let charge := event.data
    some { payment_id := charge.id
           customer_email :=
             jsOrStr (jsOr charge.receipt_email
               (charge.billing_details.bind BillingDetails.email)) "Unknown"
           amount := charge.amount
           currency := charge.currency
           failure_code := charge.failure_code
           failure_message := charge.failure_message
           failed_at := iso (event.created * 1000) }
  else
    none

/-! ## External collaborators and call traces -/

/-- The external collaborators and ambient runtime of one request:
`iso` is the JS Date-to-ISO-8601 formatter on epoch milliseconds, `nowMs`
the wall clock at processing time, `alertEmail` the `ALERT_EMAIL`
environment variable, `emailSend` the outcome of the
`gmail.users.messages.send` call, `airtableCreate` the outcome of the
Airtable `table.create` call (the created record id on success). -/
structure Collaborators where
  iso : Int → String
  nowMs : Int
  alertEmail : Option String
  emailSend : Except String Unit
  airtableCreate : Except String String

/-- `new Date().toISOString()` at processing time. -/
def nowIso (env : Collaborators) : String := env.iso env.nowMs

/-- The Airtable row created by `addToAirtable` (lines 91-103). -/
structure AirtableFields where
  paymentId : String
  customerEmail : String
  amount : ℚ
  currency : String
  failureCode : String
  failureMessage : String
  failedAt : String
  status : String
  createdAt : String
deriving DecidableEq, Repr

/-- One observable call: entering the normalization block, the Gmail send
(with its encoded message), or the Airtable create (with its row). -/
inductive CallEv where
  | normalizeCall (eventType : String)
  | emailSendCall (encoded : String)
  | airtableCreateCall (fields : AirtableFields)
deriving DecidableEq, Repr

/-- Output of one pipeline step: its return value, the audit log after the
step, and the external calls the step made. -/
structure StepOut (α : Type) where
  result : α
  logs : List LogEntry
  trace : List CallEv

/-! ## Alert Dispatcher: sendGmailAlert (lines 43-84) -/

/-- The standard base64 alphabet. -/
def base64Alphabet : List Char :=
  "ABCDEFGHIJKLMNOPQRSTUVWXYZabcdefghijklmnopqrstuvwxyz0123456789+/".toList

/-- The base64 digit for a 6-bit value. -/
def b64Char (n : Nat) : Char := base64Alphabet.getD n 'A'

/-- Standard base64 encoding of a byte sequence (with "=" padding). -/
def encodeBase64 : List UInt8 → List Char
  | b1 :: b2 :: b3 :: rest =>
      let n := b1.toNat * 65536 + b2.toNat * 256 + b3.toNat
      b64Char (n / 262144) :: b64Char (n / 4096 % 64) :: b64Char (n / 64 % 64) ::
        b64Char (n % 64) :: encodeBase64 rest
  | [b1, b2] =>
      let n := b1.toNat * 65536 + b2.toNat * 256
      [b64Char (n / 262144), b64Char (n / 4096 % 64), b64Char (n / 64 % 64), '=']
  | [b1] =>
      let n := b1.toNat * 65536
      [b64Char (n / 262144), b64Char (n / 4096 % 64), '=', '=']
  | [] => []

/-- Lines 69-73: base64-encode the UTF-8 message, replace "+" with "-" and
"/" with "_", and strip trailing "=" padding. -/
def gmailEncode (message : String) : String :=
  let cs := encodeBase64 message.toUTF8.toList
  let cs := cs.map fun c => if c = '+' then '-' else if c = '/' then '_' else c
  String.mk ((cs.reverse.dropWhile (· = '=')).reverse)

/-- Line 45: the alert subject. -/
def alertSubject (pd : PaymentFailure) : String :=
  "🚨 Payment Failed Alert - " ++ pd.customer_email

/-- The part of the body template before the amount value (lines 46-52). -/
def alertBodyPre (pd : PaymentFailure) : String :=
  ("\nPayment Failure Detected!\n\nDetails:\n- Payment ID: " ++ pd.payment_id) ++
    (("\n- Customer: " ++ pd.customer_email) ++ "\n- Amount: $")

/-- The amount rendering of line 52: `(amount / 100).toFixed(2)` followed by
the upper-cased currency. -/
def alertBodyAmount (pd : PaymentFailure) : String :=
  jsToFixed2 ((pd.amount : ℚ) / 100) ++ (" " ++ String.toUpper pd.currency)

/-- The part of the body template after the currency (lines 53-58); note the
failure code and message are interpolated with no fallback. -/
def alertBodyPost (pd : PaymentFailure) : String :=
  (("\n- Failure Code: " ++ jsInterpOpt pd.failure_code) ++
      ("\n- Failure Message: " ++ jsInterpOpt pd.failure_message)) ++
    (("\n- Date: " ++ pd.failed_at) ++
      "\n\nPlease review and take appropriate action.\n    ")

/-- The full plain-text body of the alert (the template literal of
lines 46-58). -/
def alertBody (pd : PaymentFailure) : String :=
  alertBodyPre pd ++ alertBodyAmount pd ++ alertBodyPost pd

/-- The MIME message of lines 60-67. -/
def alertMessage (alertEmail : Option String) (pd : PaymentFailure) : String :=
  String.intercalate "\n"
    ["Content-Type: text/plain; charset=\"UTF-8\"",
     "MIME-Version: 1.0",
     "To: " ++ jsOrStr alertEmail "admin@example.com",
     "Subject: " ++ alertSubject pd,
     "",
     alertBody pd]

/-- `sendGmailAlert` (lines 43-84): builds and sends the alert; every
failure of the email collaborator is caught and logged, never re-thrown,
so the step always returns normally (its result type is `Unit`, not an
`Except`). -/
def sendGmailAlert (env : Collaborators) (pd : PaymentFailure)
    (logs : List LogEntry) : StepOut Unit :=
  let encoded := gmailEncode (alertMessage env.alertEmail pd)
  match env.emailSend with
  | .ok _ =>
      { result := ()
        logs := addLog logs (nowIso env) ("Gmail alert sent for payment " ++ pd.payment_id)
        trace := [CallEv.emailSendCall encoded] }
  | .error e =>
      { result := ()
        logs := addLog logs (nowIso env) ("Error sending Gmail alert: " ++ e)
        trace := [CallEv.emailSendCall encoded] }

/-! ## Tracking Recorder: addToAirtable (lines 87-111) -/

/-- The row written to the "Failed Payments" table (lines 92-102);
`createdAt` is the wall-clock timestamp of record creation. -/
def airtableFields (createdAt : String) (pd : PaymentFailure) : AirtableFields :=
  { paymentId := pd.payment_id
    customerEmail := jsOrStr (some pd.customer_email) "Unknown"
    amount := (pd.amount : ℚ) / 100
    currency := String.toUpper pd.currency
    failureCode := jsOrStr pd.failure_code "Unknown"
    failureMessage := jsOrStr pd.failure_message "Unknown"
    failedAt := pd.failed_at
    status := "New"
    createdAt := createdAt }

/-- `addToAirtable` (lines 87-111): creates the row; on failure logs the
error and re-raises it to the caller (the result is an `Except`). -/
def addToAirtable (env : Collaborators) (pd : PaymentFailure)
    (logs : List LogEntry) : StepOut (Except String String) :=
  let f := airtableFields (nowIso env) pd
  match env.airtableCreate with
  | .ok rid =>
      { result := .ok rid
        logs := addLog logs (nowIso env) ("Added to Airtable: " ++ rid)
        trace := [CallEv.airtableCreateCall f] }
  | .error e =>
      { result := .error e
        logs := addLog logs (nowIso env) ("Error adding to Airtable: " ++ e)
        trace := [CallEv.airtableCreateCall f] }

/-! ## processFailedPayment (lines 114-160) -/

/-- `processFailedPayment`: normalize, then Dispatcher, then Recorder in
that order; a Recorder error is logged and re-raised.  The `none` branch of
`normalize` (unreachable through the webhook route, which filters event
types) models the TypeError raised when the degenerate empty record reaches
`paymentData.currency.toUpperCase()` in each sink. -/
def processFailedPayment (env : Collaborators) (event : StripeEvent)
    (logs0 : List LogEntry) : StepOut (Except String String) :=
  match normalize env.iso event with
  | some pd =>
      let g := sendGmailAlert env pd logs0
      let a := addToAirtable env pd g.logs
      match a.result with
      | .ok rid =>
          { result := .ok rid
            logs := addLog a.logs (nowIso env)
              ("Successfully processed failed payment: " ++ pd.payment_id)
            trace := CallEv.normalizeCall event.type :: (g.trace ++ a.trace) }
      | .error e =>
          { result := .error e
            logs := addLog a.logs (nowIso env)
              ("Error processing failed payment: " ++ e)
            trace := CallEv.normalizeCall event.type :: (g.trace ++ a.trace) }
  | none =>
      let msg := "Cannot read properties of undefined (reading toUpperCase)"
      { result := .error msg
        logs := addLog (addLog (addLog logs0 (nowIso env)
            ("Error sending Gmail alert: " ++ msg)) (nowIso env)
            ("Error adding to Airtable: " ++ msg)) (nowIso env)
            ("Error processing failed payment: " ++ msg)
        trace := [CallEv.normalizeCall event.type] }

/-! ## Webhook Ingress: POST /webhook/stripe (lines 163-185) -/

/-- The HTTP response body of the webhook route: an error text or the
JSON acknowledgement with received set to true. -/
inductive RespBody where
  | text (s : String)
  | jsonReceived
deriving DecidableEq, Repr

/-- Outcome of one webhook request: HTTP status, response body, audit log
after the request, and the calls made while handling it. -/
structure WebhookResult where
  status : Nat
  body : RespBody
  logs : List LogEntry
  trace : List CallEv
deriving Repr

/-- The `POST /webhook/stripe` handler.  `verifyR` is the outcome of
`stripe.webhooks.constructEvent` (the verified event, or the verification
error it throws).  Bad signature: log and respond 400.  Unrecognized type:
acknowledge with 200 and no processing.  Recognized type: run
`processFailedPayment`; a re-raised Recorder error yields 500, success
yields 200 with the received acknowledgement. -/
def webhookStripe (env : Collaborators) (verifyR : Except String StripeEvent)
    (logs0 : List LogEntry) : WebhookResult :=
  match verifyR with
  | .error e =>
      { status := 400
        body := .text ("Webhook Error: " ++ e)
        logs := addLog logs0 (nowIso env) ("Webhook signature verification failed: " ++ e)
        trace := [] }
  | .ok event =>
      if event.type ∈ recognizedTypes then
        let p := processFailedPayment env event logs0
        match p.result with
        | .ok _ =>
            { status := 200
              body := .jsonReceived
              logs := addLog p.logs (nowIso env) ("Webhook processed: " ++ event.type)
              trace := p.trace }
        | .error e =>
            { status := 500
              body := .text "Internal Server Error"
              logs := addLog p.logs (nowIso env) ("Error processing webhook: " ++ e)
              trace := p.trace }
      else
        { status := 200, body := .jsonReceived, logs := logs0, trace := [] }

/-! ## Express middleware ordering (lines 28-30)

`app.use(express.json())` is registered before
`app.use(express.raw(..))`; body-parser middlewares skip when the body
stream was already consumed by an earlier parser, so the order of
registration decides which representation the route handler sees. -/

/-- An inbound HTTP request: its content type and the raw bytes on the
wire. -/
structure HttpRequest where
  contentType : String
  payload : String
deriving DecidableEq, Repr

/-- What `req.body` holds at a given point of the middleware chain. -/
inductive BodyVal where
  | unread
  | rawBuffer (bytes : String)
  | jsonParsed (source : String)
deriving DecidableEq, Repr

/-- `express.json()`: if the content type matches and the body stream has
not been consumed yet, parse it and store the parsed object. -/
def expressJsonMw (req : HttpRequest) (b : BodyVal) : BodyVal :=
  match b with
  | .unread => if req.contentType = "application/json" then .jsonParsed req.payload else b
  | _ => b

/-- `express.raw(.. type application/json ..)`: if the content type matches
and the body stream has not been consumed yet, store the raw buffer. -/
def expressRawMw (req : HttpRequest) (b : BodyVal) : BodyVal :=
  match b with
  | .unread => if req.contentType = "application/json" then .rawBuffer req.payload else b
  | _ => b

/-- The app middleware chain of lines 28-30, in registration order:
`express.json()` first, then `express.raw(..)`.  The result is the
`req.body` the `/webhook/stripe` handler passes to
`stripe.webhooks.constructEvent`. -/
def webhookRequestBody (req : HttpRequest) : BodyVal :=
  expressRawMw req (expressJsonMw req .unread)

/-! ## Concrete example inputs -/

/-- An example ISO-8601 formatter collaborator (any function works in the
theorems; witnesses use this one). -/
def iso0 : Int → String := fun n => toString n

/-- A payment-intent failure event. -/
def evPI : StripeEvent :=
  { type := "payment_intent.payment_failed"
    created := 1700000000
    data := { id := "pi_1", receipt_email := some "cust@example.com",
              customer_email := none, billing_details := none,
              amount := 2500, amount_due := 0, currency := "usd",
              failure_code := none, failure_message := none,
              last_payment_error := some { code := some "card_declined",
                                           message := some "Your card was declined." } } }

/-- The canonical record `normalize iso0 evPI` produces. -/
def pdPI : PaymentFailure :=
  { payment_id := "pi_1", customer_email := "cust@example.com", amount := 2500,
    currency := "usd", failure_code := some "card_declined",
    failure_message := some "Your card was declined.",
    failed_at := "1700000000000" }

/-- Collaborators where both sinks succeed. -/
def envOk : Collaborators :=
  { iso := iso0, nowMs := 7, alertEmail := none,
    emailSend := .ok (), airtableCreate := .ok "recA" }

/-- Collaborators where the email collaborator throws. -/
def envEmailFail : Collaborators := { envOk with emailSend := .error "gmail down" }

/-- Collaborators where the Airtable collaborator throws. -/
def envAirtableFail : Collaborators := { envOk with airtableCreate := .error "airtable down" }

/-- A charge event whose `receipt_email` is present but empty while
`billing_details.email` is a real address. -/
def evChargeEmptyReceipt : StripeEvent :=
  { type := "charge.failed"
    created := 1700000000
    data := { id := "ch_1", receipt_email := some "", customer_email := none,
              billing_details := some { email := some "a@b.com" },
              amount := 2500, amount_due := 0, currency := "usd",
              failure_code := some "card_declined", failure_message := some "declined",
              last_payment_error := none } }

/-- A payment-intent event whose `receipt_email` is present but empty. -/
def evPIEmptyEmail : StripeEvent :=
  { type := "payment_intent.payment_failed"
    created := 1
    data := { id := "pi_2", receipt_email := some "", customer_email := none,
              billing_details := none, amount := 100, amount_due := 0,
              currency := "usd", failure_code := none, failure_message := none,
              last_payment_error := none } }

/-- The canonical record `normalize iso0 evPIEmptyEmail` produces. -/
def pdPIEmptyEmail : PaymentFailure :=
  { payment_id := "pi_2", customer_email := "Unknown", amount := 100,
    currency := "usd", failure_code := none, failure_message := none,
    failed_at := "1000" }

/-- A canonical record with absent failure code and message. -/
def pdNoCode : PaymentFailure :=
  { payment_id := "pi_1", customer_email := "a@b.com", amount := 2500,
    currency := "usd", failure_code := none, failure_message := none,
    failed_at := "2024-01-01T00:00:00.000Z" }

/-- A canonical record with all optional fields present. -/
def pdFull : PaymentFailure :=
  { payment_id := "pi_9", customer_email := "c@d.com", amount := 999,
    currency := "eur", failure_code := some "expired_card",
    failure_message := some "The card has expired.",
    failed_at := "2024-02-02T00:00:00.000Z" }

/-- Modelled from the spec words of claim C8 (not from the source): a
Dispatcher body that substitutes the "Unknown" fallback for an absent
`failure_code` / `failure_message` instead of rendering the absent value.
It is compared against `alertBody`, the body the source actually builds. -/
def specAlertBodyWithFallback (pd : PaymentFailure) : String :=
  alertBodyPre pd ++ alertBodyAmount pd ++
    ((("\n- Failure Code: " ++ jsOrStr pd.failure_code "Unknown") ++
        ("\n- Failure Message: " ++ jsOrStr pd.failure_message "Unknown")) ++
      (("\n- Date: " ++ pd.failed_at) ++
        "\n\nPlease review and take appropriate action.\n    "))

/-! ## Helper lemmas -/

/-- Rounding half away from zero is the identity on integers. -/
theorem jsRoundHalfAway_intCast (n : ℤ) : jsRoundHalfAway (n : ℚ) = n := by
  have hhalf : ⌊(1/2 : ℚ)⌋ = 0 := by
    rw [Int.floor_eq_zero_iff]
    constructor <;> norm_num
  unfold jsRoundHalfAway
  split_ifs with h
  · rw [add_comm, Int.floor_add_int, hhalf, zero_add]
  · have : -(n : ℚ) = ((-n : ℤ) : ℚ) := by push_cast; ring
    rw [this, add_comm, Int.floor_add_int, hhalf, zero_add, neg_neg]

/-- An integer number of cents divided by 100 times 100 is the integer
back. -/
theorem cents_div_mul (a : ℤ) : ((a : ℚ) / 100) * 100 = (a : ℚ) := by
  field_simp

/-- `toFixed(2)` applied to `amount / 100` renders the integer amount of
cents exactly: the two-decimal rounding of the sinks loses nothing. -/
theorem jsToFixed2_cents (a : ℤ) : jsToFixed2 ((a : ℚ) / 100) = renderCents a := by
  unfold jsToFixed2
  rw [cents_div_mul, jsRoundHalfAway_intCast]

/-- Two-decimal rounding is the identity on integer cents divided by
100. -/
theorem roundTo2_cents (a : ℤ) : roundTo2 ((a : ℚ) / 100) = (a : ℚ) / 100 := by
  unfold roundTo2
  rw [cents_div_mul, jsRoundHalfAway_intCast]

/-- One append never leaves more than 50 entries. -/
theorem addLog_length_le (l : List LogEntry) (t m : String) :
    (addLog l t m).length ≤ 50 := by
  simp only [addLog, jsSliceLast]
  split_ifs with h
  · simp only [List.length_drop]
    omega
  · simp only [List.length_append, List.length_cons, List.length_nil] at h ⊢
    omega

/-- Appending to a common prefix is injective. -/
theorem string_append_left_cancel (s x y : String) (h : s ++ x = s ++ y) : x = y := by
  obtain ⟨ls⟩ := s
  obtain ⟨lx⟩ := x
  obtain ⟨ly⟩ := y
  have h2 : ls ++ lx = ls ++ ly := congrArg String.data h
  exact congrArg String.mk (List.append_cancel_left h2)

/-- Every recognized event type normalizes to a record. -/
theorem normalize_of_recognized (iso : Int → String) (ev : StripeEvent)
    (h : ev.type ∈ recognizedTypes) : ∃ pd, normalize iso ev = some pd := by
  simp only [recognizedTypes, List.mem_cons, List.not_mem_nil, or_false] at h
  rcases h with h | h | h <;> simp [normalize, h]

/-! ## Claim theorems -/

/-- Claim C2 (code bug): with the middleware registered as in the source
(`express.json()` on line 29 before `express.raw(..)` on line 30), every
`application/json` request reaches the webhook route with a pre-parsed
object as `req.body`, not the raw unparsed body — so the body handed to
the signature verifier is never the raw payload and verification cannot
succeed on a validly signed request. -/
theorem webhook_body_is_parsed_not_raw (payload : String) :
    webhookRequestBody { contentType := "application/json", payload := payload }
      = BodyVal.jsonParsed payload := rfl

/-- Claim C5: when signature verification fails, the route responds
HTTP 400 with the error text, appends exactly the verification-failure
audit entry, and makes no call to the Normalizer, the Dispatcher or the
Recorder (the call trace is empty). -/
theorem invalid_signature_400_no_side_effects (env : Collaborators) (e : String)
    (logs0 : List LogEntry) :
    webhookStripe env (Except.error e) logs0 =
      { status := 400
        body := RespBody.text ("Webhook Error: " ++ e)
        logs := addLog logs0 (nowIso env) ("Webhook signature verification failed: " ++ e)
        trace := [] } := rfl

set_option maxRecDepth 100000 in
/-- Claim C6: the audit log never exceeds 50 entries after any number of
appends; after appending 55 entries, the most-recent-20 snapshot returns
entries 36 through 55 in insertion order; and taking the snapshot (the
`GET /logs` read) leaves the log unchanged. -/
theorem audit_log_bounded_and_snapshot :
    (∀ msgs : List (String × String),
        (msgs.foldl (fun l tm => addLog l tm.1 tm.2) []).length ≤ 50)
    ∧ jsSliceLast 20 ((List.range 55).foldl (fun l i => addLog l "t" (toString (i + 1))) [])
        = (List.range 20).map (fun i => { timestamp := "t", message := toString (i + 36) })
    ∧ (∀ logs, getLogsEndpoint logs = (jsSliceLast 20 logs, logs)) := by
  refine ⟨?_, by decide, fun logs => rfl⟩
  have step : ∀ (msgs : List (String × String)) (init : List LogEntry),
      init.length ≤ 50 →
      (msgs.foldl (fun l tm => addLog l tm.1 tm.2) init).length ≤ 50 := by
    intro msgs
    induction msgs with
    | nil => intro init h; simpa using h
    | cons tm rest ih =>
        intro init h
        exact ih _ (addLog_length_le init tm.1 tm.2)
  intro msgs
  exact step msgs [] (by simp)

/-- Claim C7: for every recognized event (i.e. whenever normalization
produces a record), the record's `failed_at` is the ISO-8601 rendering of
`event.created * 1000` — a function of the event's own creation time only,
not of the wall clock (`nowMs` does not occur). -/
theorem failed_at_from_event_creation (iso : Int → String) (ev : StripeEvent)
    (pd : PaymentFailure) (hpd : normalize iso ev = some pd) :
    pd.failed_at = iso (ev.created * 1000) := by
  unfold normalize at hpd
  split_ifs at hpd <;> (injection hpd with h; subst h; rfl)

/-- Witness for C7 at a concrete payment-intent event. -/
theorem failed_at_from_event_creation_witness :
    normalize iso0 evPI = some pdPI ∧ pdPI.failed_at = iso0 (evPI.created * 1000) :=
  ⟨rfl, failed_at_from_event_creation iso0 evPI pdPI rfl⟩

/-- Claim C1: the canonical record's `amount` is the integer minor-unit
value copied verbatim from the source field (`amount`, `amount_due`, or
`amount` by event shape); the Recorder's Amount column is exactly
`amount / 100`, on which two-decimal rounding is the identity; and the
Dispatcher body renders `toFixed(2)` of `amount / 100`, which is the exact
two-decimal rendering of the integer cents. -/
theorem amount_minor_units_and_sink_conversion (iso : Int → String)
    (ev : StripeEvent) (pd : PaymentFailure) (createdAt : String)
    (hpd : normalize iso ev = some pd) :
    pd.amount = (if ev.type = "invoice.payment_failed" then ev.data.amount_due
                 else ev.data.amount)
    ∧ (airtableFields createdAt pd).amount = (pd.amount : ℚ) / 100
    ∧ roundTo2 ((pd.amount : ℚ) / 100) = (pd.amount : ℚ) / 100
    ∧ alertBodyAmount pd
        = jsToFixed2 ((pd.amount : ℚ) / 100) ++ (" " ++ String.toUpper pd.currency)
    ∧ jsToFixed2 ((pd.amount : ℚ) / 100) = renderCents pd.amount := by
  refine ⟨?_, rfl, roundTo2_cents pd.amount, rfl, jsToFixed2_cents pd.amount⟩
  unfold normalize at hpd
  split_ifs at hpd with h1 h2 h3 <;>
    (injection hpd with h; subst h; simp_all)

/-- Witness for C1 at a concrete payment-intent event. -/
theorem amount_minor_units_witness :
    normalize iso0 evPI = some pdPI ∧ pdPI.amount = evPI.data.amount
      ∧ roundTo2 ((pdPI.amount : ℚ) / 100) = (pdPI.amount : ℚ) / 100 := by
  have h := amount_minor_units_and_sink_conversion iso0 evPI pdPI "C" rfl
  exact ⟨rfl, by simpa using h.1, h.2.2.1⟩

/-- Claim C3: the Dispatcher never propagates an error: for every record
the pipeline normalizes and every behavior of the email collaborator
(including throwing), the Recorder is still invoked on the same record,
the pipeline's result does not depend on the email outcome at all, and the
Recorder's return value is produced normally. -/
theorem dispatcher_failure_never_blocks_recorder (env : Collaborators)
    (ev : StripeEvent) (pd : PaymentFailure) (logs0 : List LogEntry) (e : String)
    (hpd : normalize env.iso ev = some pd)
    (hemail : env.emailSend = Except.error e) :
    CallEv.airtableCreateCall (airtableFields (nowIso env) pd)
        ∈ (processFailedPayment env ev logs0).trace
    ∧ (∀ r, (processFailedPayment { env with emailSend := r } ev logs0).result
          = (processFailedPayment env ev logs0).result)
    ∧ (∀ rid, env.airtableCreate = Except.ok rid →
        (processFailedPayment env ev logs0).result = Except.ok rid) := by
  obtain ⟨iso, nowMs, alertEmail, emailSend, airtableCreate⟩ := env
  simp only at hpd hemail
  subst hemail
  refine ⟨?_, ?_, ?_⟩
  · cases airtableCreate <;>
      simp [processFailedPayment, hpd, sendGmailAlert, addToAirtable, nowIso]
  · intro r
    cases airtableCreate <;> cases r <;>
      simp [processFailedPayment, hpd, sendGmailAlert, addToAirtable]
  · intro rid hc
    cases airtableCreate <;> simp_all [processFailedPayment, hpd, sendGmailAlert, addToAirtable]

/-- Witness for C3: with the email collaborator throwing and the Airtable
collaborator succeeding, the Recorder is called and its record id is
returned. -/
theorem dispatcher_failure_witness :
    normalize envEmailFail.iso evPI = some pdPI
    ∧ envEmailFail.emailSend = Except.error "gmail down"
    ∧ CallEv.airtableCreateCall (airtableFields (nowIso envEmailFail) pdPI)
        ∈ (processFailedPayment envEmailFail evPI []).trace
    ∧ (processFailedPayment envEmailFail evPI []).result = Except.ok "recA" := by
  have h := dispatcher_failure_never_blocks_recorder envEmailFail evPI pdPI [] "gmail down"
    rfl rfl
  exact ⟨rfl, rfl, h.1, h.2.2 "recA" rfl⟩

/-- Claim C4: a Recorder failure is logged at the Recorder boundary,
re-raised to the caller, and turned into HTTP 500 by the webhook route —
regardless of the Dispatcher's outcome; on Recorder success the route
responds HTTP 200 with the received acknowledgement. -/
theorem recorder_failure_logged_and_500 (env : Collaborators) (ev : StripeEvent)
    (logs0 : List LogEntry) (e : String)
    (hrec : ev.type ∈ recognizedTypes)
    (hc : env.airtableCreate = Except.error e) :
    (∀ pd logs, addToAirtable env pd logs =
        { result := Except.error e
          logs := addLog logs (nowIso env) ("Error adding to Airtable: " ++ e)
          trace := [CallEv.airtableCreateCall (airtableFields (nowIso env) pd)] })
    ∧ (processFailedPayment env ev logs0).result = Except.error e
    ∧ (webhookStripe env (Except.ok ev) logs0).status = 500
    ∧ (webhookStripe env (Except.ok ev) logs0).body = RespBody.text "Internal Server Error"
    ∧ (∀ env2 : Collaborators, ∀ rid, env2.airtableCreate = Except.ok rid →
        (webhookStripe env2 (Except.ok ev) logs0).status = 200
        ∧ (webhookStripe env2 (Except.ok ev) logs0).body = RespBody.jsonReceived) := by
  obtain ⟨pd, hpd⟩ := normalize_of_recognized env.iso ev hrec
  have hfields : ∀ pd2 logs, addToAirtable env pd2 logs =
      { result := Except.error e
        logs := addLog logs (nowIso env) ("Error adding to Airtable: " ++ e)
        trace := [CallEv.airtableCreateCall (airtableFields (nowIso env) pd2)] } := by
    intro pd2 logs
    simp [addToAirtable, hc]
  have hres : (processFailedPayment env ev logs0).result = Except.error e := by
    simp [processFailedPayment, hpd, hfields]
  refine ⟨hfields, hres, ?_, ?_, ?_⟩
  · simp [webhookStripe, hrec, hres]
  · simp [webhookStripe, hrec, hres]
  · intro env2 rid hc2
    obtain ⟨pd2, hpd2⟩ := normalize_of_recognized env2.iso ev hrec
    have hres2 : (processFailedPayment env2 ev logs0).result = Except.ok rid := by
      simp [processFailedPayment, hpd2, addToAirtable, hc2]
    constructor <;> simp [webhookStripe, hrec, hres2]

/-- Witness for C4: with a failing Airtable collaborator the route yields
HTTP 500 on a concrete recognized event; with a succeeding one it yields
HTTP 200. -/
theorem recorder_failure_witness :
    evPI.type ∈ recognizedTypes
    ∧ envAirtableFail.airtableCreate = Except.error "airtable down"
    ∧ (webhookStripe envAirtableFail (Except.ok evPI) []).status = 500
    ∧ (webhookStripe envOk (Except.ok evPI) []).status = 200 := by
  have h := recorder_failure_logged_and_500 envAirtableFail evPI [] "airtable down"
    (by decide) rfl
  exact ⟨by decide, rfl, h.2.2.1, (h.2.2.2.2 envOk "recA" rfl).1⟩

/-- Counterexample to Claim C8 as stated: on a record with absent
failure_code and failure_message, the body the Dispatcher actually builds
differs from the body the claim describes (the spec-modelled one that
substitutes the "Unknown" fallback): the source interpolates the absent
values, rendering "undefined". -/
theorem dispatcher_no_fallback_counterexample :
    (specAlertBodyWithFallback pdNoCode == alertBody pdNoCode) = false := by
  rw [beq_eq_false_iff_ne]
  intro h
  have h2 := string_append_left_cancel _ _ _ h
  revert h2
  decide

/-- Claim C8 (amended): the "Unknown" fallback for absent `failure_code` /
`failure_message` is applied only at the Recorder boundary (its Failure
Code and Failure Message columns); the Dispatcher interpolates the absent
values directly, rendering the text "undefined" in its body. -/
theorem unknown_fallback_recorder_only (createdAt : String) (pd : PaymentFailure)
    (hc : pd.failure_code = none) (hm : pd.failure_message = none) :
    (airtableFields createdAt pd).failureCode = "Unknown"
    ∧ (airtableFields createdAt pd).failureMessage = "Unknown"
    ∧ alertBody pd = alertBodyPre pd ++ alertBodyAmount pd ++
        ("\n- Failure Code: undefined\n- Failure Message: undefined" ++
          (("\n- Date: " ++ pd.failed_at) ++
            "\n\nPlease review and take appropriate action.\n    ")) := by
  refine ⟨by simp [airtableFields, jsOrStr, hc], by simp [airtableFields, jsOrStr, hm], ?_⟩
  simp only [alertBody, alertBodyPost, hc, hm, jsInterpOpt]
  rfl

/-- Witness for the amended C8 at a concrete record. -/
theorem unknown_fallback_witness :
    pdNoCode.failure_code = none
    ∧ (airtableFields "C" pdNoCode).failureCode = "Unknown"
    ∧ (airtableFields "C" pdNoCode).failureMessage = "Unknown" := by
  have h := unknown_fallback_recorder_only "C" pdNoCode rfl rfl
  exact ⟨rfl, h.1, h.2.1⟩

/-- Counterexample to Claim C9 as stated: the subject line the Dispatcher
builds is not exactly "Payment Failed Alert - {customer_email}" — it
carries a leading siren-emoji prefix. -/
theorem alert_subject_counterexample :
    (alertSubject pdFull == "Payment Failed Alert - " ++ pdFull.customer_email) = false := by
  rfl

/-- Claim C9 (amended): the Dispatcher subject line is exactly
"🚨 Payment Failed Alert - {customer_email}" (siren-emoji prefix included),
and the body presents the amount as `toFixed(2)` of `amount / 100` — the
exact two-decimal rendering of the integer cents — with the currency
upper-cased. -/
theorem alert_subject_and_amount_format (pd : PaymentFailure) :
    alertSubject pd = "🚨 Payment Failed Alert - " ++ pd.customer_email
    ∧ alertBody pd = alertBodyPre pd ++
        (jsToFixed2 ((pd.amount : ℚ) / 100) ++ (" " ++ String.toUpper pd.currency)) ++
        alertBodyPost pd
    ∧ jsToFixed2 ((pd.amount : ℚ) / 100) = renderCents pd.amount :=
  ⟨rfl, rfl, jsToFixed2_cents pd.amount⟩

/-- Counterexample to Claim C10 as stated: a charge event whose
`receipt_email` is present but empty does not normalize to customer_email
"Unknown" when `billing_details.email` is set — the empty string falls
through to the billing-details address. -/
theorem email_empty_string_counterexample :
    (normalize iso0 evChargeEmptyReceipt).map PaymentFailure.customer_email
      = some "a@b.com"
    ∧ ((normalize iso0 evChargeEmptyReceipt).map PaymentFailure.customer_email
        == some "Unknown") = false := ⟨rfl, rfl⟩

/-- Claim C10 (amended): email defaulting triggers on any falsy value:
an empty-string email field is treated like an absent one.  A
payment-intent event with empty `receipt_email` and an invoice event with
empty `customer_email` normalize to "Unknown"; for a charge event an empty
`receipt_email` falls through to `billing_details.email`, and "Unknown"
results exactly when that fallback is also absent or empty; and the
Recorder replaces an empty-string `customer_email` with "Unknown" in its
row. -/
theorem email_falsy_defaulting :
    (∀ (iso : Int → String) (ev : StripeEvent) (pd : PaymentFailure),
        ev.type = "payment_intent.payment_failed" →
        ev.data.receipt_email = some "" →
        normalize iso ev = some pd → pd.customer_email = "Unknown")
    ∧ (∀ (iso : Int → String) (ev : StripeEvent) (pd : PaymentFailure),
        ev.type = "invoice.payment_failed" →
        ev.data.customer_email = some "" →
        normalize iso ev = some pd → pd.customer_email = "Unknown")
    ∧ (∀ (iso : Int → String) (ev : StripeEvent) (pd : PaymentFailure),
        ev.type = "charge.failed" →
        ev.data.receipt_email = some "" →
        (ev.data.billing_details.bind BillingDetails.email = none
          ∨ ev.data.billing_details.bind BillingDetails.email = some "") →
        normalize iso ev = some pd → pd.customer_email = "Unknown")
    ∧ (∀ (iso : Int → String) (ev : StripeEvent) (pd : PaymentFailure) (em : String),
        ev.type = "charge.failed" →
        ev.data.receipt_email = some "" →
        ev.data.billing_details.bind BillingDetails.email = some em →
        em ≠ "" →
        normalize iso ev = some pd → pd.customer_email = em)
    ∧ (∀ (createdAt : String) (pd : PaymentFailure),
        pd.customer_email = "" →
        (airtableFields createdAt pd).customerEmail = "Unknown") := by
  refine ⟨?_, ?_, ?_, ?_, ?_⟩
  · intro iso ev pd ht hre hpd
    simp [normalize, ht] at hpd
    subst hpd
    simp [jsOrStr, hre]
  · intro iso ev pd ht hce hpd
    simp [normalize, ht] at hpd
    subst hpd
    simp [jsOrStr, hce]
  · intro iso ev pd ht hre hb hpd
    simp [normalize, ht] at hpd
    subst hpd
    rcases hb with hb | hb <;> simp [jsOrStr, jsOr, hre, hb]
  · intro iso ev pd em ht hre hb hne hpd
    simp [normalize, ht] at hpd
    subst hpd
    simp [jsOrStr, jsOr, hre, hb, hne]
  · intro createdAt pd h
    simp [airtableFields, jsOrStr, h]

/-- Witness for the amended C10: a payment-intent event with an empty
receipt email normalizes to customer_email "Unknown". -/
theorem email_falsy_defaulting_witness :
    normalize iso0 evPIEmptyEmail = some pdPIEmptyEmail
    ∧ pdPIEmptyEmail.customer_email = "Unknown" :=
  ⟨rfl, email_falsy_defaulting.1 iso0 evPIEmptyEmail pdPIEmptyEmail rfl rfl rfl⟩

end PaymentMonitor
